import Mathlib

/-!
Verification of the entity/relationship CRUD-and-query layer of an
MCP knowledge-graph server backed by a property-graph store.

The development shallowly embeds the relevant source modules:

* `src/tools/delete_entities.py` — `delete_entities_impl` and
  `_analyze_deletion_impact` (deletion-impact analysis, orphan
  detection, dry run, cascade vs. conservative deletion);
* `src/tools/search_entities.py` — `search_entities_impl` (dynamic
  WHERE-clause construction: fuzzy/exact matching over an explicit
  property list or over all property keys);
* `src/tools/update_entities.py` — `update_entities_impl` (up-front
  existence check over the whole batch, then per-request SET/REMOVE).

The graph store is modelled as an explicit state (`Graph`): a list of
nodes and a list of relationships.  Each Cypher query issued by the
source is translated into a pure function on this state; the Python
driver code around it (branching, result assembly) is translated
directly.  Modelling conventions, stated once here:

* Property values are strings, integers or booleans (`Value`), the
  scalar types the data model admits.
* Every modelled node carries a string-valued `id` property, kept in
  the dedicated `Node.id` field (the entity-creation path always
  stores one, derived from `id` or `name`).  The full Neo4j property
  map of a node — what `properties(n)` / `keys(n)` return — is
  therefore `("id", id)` consed onto the remaining properties, see
  `Node.allProps`.  Node ids are assumed unique, so a relationship is
  identified by the ids of its endpoint nodes.
* A Cypher row set such as `MATCH (n:Entity) ... OPTIONAL MATCH
  (n)-[r]-()` is the list of matched nodes paired with their incident
  relationships; `collect(DISTINCT ...)` is `distinctList` (keep the
  first occurrence of each element, in row order).  Rows in which the
  optional relationship is NULL contribute no relationship record,
  matching the source's `[r for r in relations if r is not None]`.
-/

/-- A scalar property value: string, integer or boolean. -/
inductive Value where
  | str (s : String)
  | int (n : Int)
  | bool (b : Bool)
deriving DecidableEq, Repr

/-- A node of the property graph: its `id` property, its labels, and
its remaining properties (everything except `id`). -/
structure Node where
  id : String
  labels : List String
  props : List (String × Value)
deriving DecidableEq, Repr

/-- The full property map of a node, as returned by `properties(n)` /
scanned by `keys(n)`: the `id` property plus the rest. -/
def Node.allProps (n : Node) : List (String × Value) :=
  ("id", Value.str n.id) :: n.props

/-- A relationship (edge): its type, the ids of its start and end
nodes, and its own properties. -/
structure Edge where
  relType : String
  src : String
  dst : String
  props : List (String × Value)
deriving DecidableEq, Repr

/-- The graph store state: all nodes and all relationships. -/
structure Graph where
  nodes : List Node
  rels : List Edge
deriving DecidableEq, Repr

/-- `collect(DISTINCT ...)`: deduplicate a list, keeping the first
occurrence of each element in order.  `seen` accumulates the elements
already emitted. -/
def distinctAux [DecidableEq α] (seen : List α) : List α → List α
  | [] => []
  | a :: l => if a ∈ seen then distinctAux seen l else a :: distinctAux (a :: seen) l

/-- Deduplication keeping first occurrences (Cypher `DISTINCT`). -/
def distinctList [DecidableEq α] (l : List α) : List α :=
  distinctAux [] l

theorem mem_distinctAux [DecidableEq α] (a : α) (l : List α) :
    ∀ seen, a ∈ distinctAux seen l ↔ a ∈ l ∧ a ∉ seen := by
  induction l with
  | nil => intro seen; simp [distinctAux]
  | cons b l ih =>
    intro seen
    by_cases hb : b ∈ seen
    · simp only [distinctAux, if_pos hb, ih]
      constructor
      · rintro ⟨h1, h2⟩; exact ⟨List.mem_cons_of_mem _ h1, h2⟩
      · rintro ⟨h1, h2⟩
        rcases List.mem_cons.mp h1 with rfl | h
        · exact absurd hb h2
        · exact ⟨h, h2⟩
    · simp only [distinctAux, if_neg hb]
      constructor
      · intro h
        rcases List.mem_cons.mp h with rfl | h
        · exact ⟨List.mem_cons_self _ _, hb⟩
        · obtain ⟨h1, h2⟩ := (ih _).mp h
          refine ⟨List.mem_cons_of_mem _ h1, fun hs => h2 (List.mem_cons_of_mem _ hs)⟩
      · rintro ⟨h1, h2⟩
        rcases List.mem_cons.mp h1 with rfl | h1
        · exact List.mem_cons_self _ _
        · by_cases hab : a = b
          · exact hab ▸ List.mem_cons_self _ _
          · refine List.mem_cons_of_mem _ ((ih _).mpr ⟨h1, ?_⟩)
            intro hs
            rcases List.mem_cons.mp hs with rfl | hs
            · exact hab rfl
            · exact h2 hs

theorem mem_distinctList [DecidableEq α] (a : α) (l : List α) :
    a ∈ distinctList l ↔ a ∈ l := by
  simp [distinctList, mem_distinctAux]

/-- A relationship incident to node `n` (either direction):
the Cypher pattern `(n)-[r]-()`. -/
def incident (n : Node) (r : Edge) : Bool :=
  decide (r.src = n.id) || decide (r.dst = n.id)

/-- An entity record as assembled by the source's result maps
`{id: n.id, type: labels(n), properties: properties(n)}` and the
`Entity` dataclass produced by `_neo4j_to_entity`. -/
structure EntityRecord where
  id : String
  type : List String
  properties : List (String × Value)
deriving DecidableEq, Repr

/-- A relationship record as assembled by
`{type: type(r), from: startNode(r).id, to: endNode(r).id,
properties: properties(r)}` (`fromId`/`toId` stand for the source's
`from`/`to` keys). -/
structure RelRecord where
  relType : String
  fromId : String
  toId : String
  properties : List (String × Value)
deriving DecidableEq, Repr

/-- Result map for a node. -/
def entityMap (n : Node) : EntityRecord :=
  ⟨n.id, n.labels, n.allProps⟩

/-- Result map for a relationship. -/
def relMap (r : Edge) : RelRecord :=
  ⟨r.relType, r.src, r.dst, r.props⟩

/-- `MATCH (n:Entity) WHERE n.id IN $entity_ids`: the matched node. -/
def matchesDelete (entityIds : List String) (n : Node) : Bool :=
  decide ("Entity" ∈ n.labels) && decide (n.id ∈ entityIds)

/-- The nodes matched by `MATCH (n:Entity) WHERE n.id IN $entity_ids`. -/
def matchedNodes (g : Graph) (entityIds : List String) : List Node :=
  g.nodes.filter (matchesDelete entityIds)

/-- The impact dictionary computed by `_analyze_deletion_impact`. -/
structure Impact where
  entities : List EntityRecord
  relations : List RelRecord
  orphaned_relations : List RelRecord
deriving DecidableEq, Repr

/-- `_analyze_deletion_impact` (src/tools/delete_entities.py).

The query matches every `Entity`-labelled node whose id is in
`entity_ids`, pairs it with each incident relationship, and collects
the distinct entity maps and distinct relationship maps; rows whose
optional relationship is NULL contribute no relationship (the source
filters out `None`).  A relationship is orphaned when exactly one of
its `from`/`to` ids is in the requested id list. -/
def analyzeDeletionImpact (g : Graph) (entityIds : List String) : Impact :=
  let matched := matchedNodes g entityIds
  let entities := distinctList (matched.map entityMap)
  let relations :=
    distinctList ((matched.flatMap (fun n => g.rels.filter (incident n))).map relMap)
  let orphaned := relations.filter
    (fun rel => decide (rel.fromId ∈ entityIds) != decide (rel.toId ∈ entityIds))
  ⟨entities, relations, orphaned⟩

/-- One element of the `requests` list of `delete_entities_impl`. -/
structure DeleteEntityRequest where
  id : String
  cascade : Bool := false
deriving DecidableEq, Repr

/-- The `DeletionResult` dataclass.  Optional fields default to the
Python `None`. -/
structure DeletionResult where
  success : Bool
  deleted_entities : List EntityRecord
  deleted_relationships : List RelRecord
  errors : Option (List String) := none
  impacted_entities : Option (List EntityRecord) := none
  impacted_relationships : Option (List RelRecord) := none
deriving DecidableEq, Repr

/-- The error message of the orphan-prevention branch. -/
def orphanErrorMsg : String :=
  "Cannot delete entities as it would create orphaned relationships. Use cascade=True to delete relationships as well."

/-- The cascade deletion query: delete every matched node and every
relationship incident to a matched node; report `count(DISTINCT n)`
(the number of matched node instances). -/
def performCascadeDelete (g : Graph) (entityIds : List String) : Graph × Nat :=
  let del := matchedNodes g entityIds
  (⟨g.nodes.filter (fun n => !(matchesDelete entityIds n)),
    g.rels.filter (fun r => !(del.any (fun n => incident n r)))⟩,
   del.length)

/-- The non-cascade deletion query: delete only matched nodes with no
incident relationship at all (`AND NOT (n)-[]-()`); relationships are
untouched. -/
def performSafeDelete (g : Graph) (entityIds : List String) : Graph × Nat :=
  let deletable := fun n =>
    matchesDelete entityIds n && !(g.rels.any (fun r => incident n r))
  (⟨g.nodes.filter (fun n => !(deletable n)), g.rels⟩,
   (g.nodes.filter deletable).length)

/-- The body of `delete_entities_impl` (src/tools/delete_entities.py)
after the id list and the batch-level cascade flag have been computed,
as a function from the store state to the new state and the returned
`DeletionResult`:

1. the impact is computed, and returned unchanged on `dry_run`;
2. without cascade, a non-empty orphaned set aborts with an error and
   no mutation;
3. otherwise the cascade or the conservative deletion query runs, and
   a zero `deleted_entities` count is reported as "Entity not found";
4. on success the result echoes the impact's entities (and, under
   cascade, its relationships) as the deleted sets. -/
def deleteCore (g : Graph) (entityIds : List String) (cascade dryRun : Bool) :
    Graph × DeletionResult :=
  let impact := analyzeDeletionImpact g entityIds
  if dryRun then
    (g, { success := true, deleted_entities := [], deleted_relationships := [],
          impacted_entities := some impact.entities,
          impacted_relationships := some impact.relations })
  else if !cascade && !impact.orphaned_relations.isEmpty then
    (g, { success := false, deleted_entities := [], deleted_relationships := [],
          errors := some [orphanErrorMsg] })
  else
    let step := if cascade then performCascadeDelete g entityIds
                else performSafeDelete g entityIds
    if step.2 = 0 then
      (step.1, { success := false, deleted_entities := [], deleted_relationships := [],
                 errors := some ["Entity not found"] })
    else
      (step.1, { success := true,
                 deleted_entities := impact.entities,
                 deleted_relationships := if cascade then impact.relations else [] })

/-- `delete_entities_impl` proper: the source computes the id list and
the batch-level cascade flag once (lines 70–71, `entity_ids =
[r.id for r in requests]` and `cascade = any(r.cascade ...)`) and
everything afterwards depends on the requests only through these two
values, which `deleteCore` consumes. -/
def deleteEntitiesImpl (g : Graph) (requests : List DeleteEntityRequest)
    (dryRun : Bool := false) : Graph × DeletionResult :=
  deleteCore g (requests.map (·.id)) (requests.any (·.cascade)) dryRun

/-! ## Search engine (src/tools/search_entities.py) -/

/-- The `SearchEntityRequest` dataclass.  The Python code tests the
optional `search_term` / `entity_type` / `properties` fields for
truthiness only, so an absent value is modelled by `""` / `""` / `[]`
(Python `None` and the empty string/list are falsy alike, and the
source treats them identically).  Relationship inclusion only augments
the returned records with related-node data and plays no part in the
matching predicate; it is not modelled. -/
structure SearchEntityRequest where
  search_term : String := ""
  entity_type : String := ""
  properties : List String := []
  fuzzy_match : Bool := true
deriving DecidableEq, Repr

/-- Splitting a character stream on whitespace runs (`cur` holds the
reversed current word): the recursion behind `splitWords`. -/
def wordsAux : List Char → List Char → List String
  | [], cur => if cur.isEmpty then [] else [String.mk cur.reverse]
  | c :: cs, cur =>
    if c.isWhitespace then
      if cur.isEmpty then wordsAux cs [] else String.mk cur.reverse :: wordsAux cs []
    else wordsAux cs (c :: cur)

/-- Python's `str.split()` on the search term: split on whitespace
runs and drop empty fragments. -/
def splitWords (t : String) : List String :=
  wordsAux t.toList []

/-- The lower-cased character stream of a string (Cypher `toLower`). -/
def charsLower (s : String) : List Char :=
  s.toList.map Char.toLower

/-- Cypher `toLower(s) CONTAINS toLower(sub)`: case-insensitive
substring containment. -/
def containsCI (s sub : String) : Bool :=
  (charsLower s).tails.any (fun t => (charsLower sub).isPrefixOf t)

/-- Cypher `toString` on a property value. -/
def toStringVal : Value → String
  | .str s => s
  | .int n => toString n
  | .bool b => if b then "true" else "false"

/-- One fuzzy property clause of the explicit-properties branch:
`(toLower(toString(n.prop)) CONTAINS toLower($word_0) OR ...)`, one
disjunct per word of the split search term.  A node lacking the
property yields NULL through `toString`/`toLower`/`CONTAINS`, hence no
match. -/
def fuzzyPropMatch (n : Node) (prop : String) (term : String) : Bool :=
  match n.allProps.lookup prop with
  | none => false
  | some v => (splitWords term).any (fun w => containsCI (toStringVal v) w)

/-- The scan-all-keys fuzzy clause
`ANY (prop IN keys(n) WHERE n[prop] =~ $fuzzy_pattern)` with pattern
`(?i).*term.*`.  The Cypher regex operator matches only string values
(a non-string or NULL subject yields NULL, which fails the WHERE);
for a term without regex metacharacters the pattern is exactly
case-insensitive containment. -/
def regexFuzzyValue (v : Value) (term : String) : Bool :=
  match v with
  | .str s => containsCI s term
  | _ => false

/-- The WHERE predicate built by `search_entities_impl`, branch for
branch:

* `properties` non-empty, no term: any listed property IS NOT NULL;
* `properties` non-empty, term, fuzzy: some listed property contains
  (case-insensitively, after `toString`) some word of the term;
* `properties` non-empty, term, exact: some listed property equals the
  term as a string literal;
* no `properties`, term, fuzzy: some key's raw value matches the
  case-insensitive containment regex;
* no `properties`, term, exact: some key's value equals the term
  (string parameter);
* neither: no predicate. -/
def searchWhere (req : SearchEntityRequest) (n : Node) : Bool :=
  if !req.properties.isEmpty then
    if decide (req.search_term = "") then
      req.properties.any (fun p => (n.allProps.lookup p).isSome)
    else if req.fuzzy_match then
      req.properties.any (fun p => fuzzyPropMatch n p req.search_term)
    else
      req.properties.any
        (fun p => decide (n.allProps.lookup p = some (Value.str req.search_term)))
  else if !(decide (req.search_term = "")) then
    if req.fuzzy_match then
      n.allProps.any (fun kv => regexFuzzyValue kv.2 req.search_term)
    else
      n.allProps.any (fun kv => decide (kv.2 = Value.str req.search_term))
  else
    true

/-- The label part of the match: `MATCH (n:Entity)` plus the optional
exact type label. -/
def searchLabelOk (req : SearchEntityRequest) (n : Node) : Bool :=
  decide ("Entity" ∈ n.labels) &&
    (decide (req.entity_type = "") || decide (req.entity_type ∈ n.labels))

/-- `search_entities_impl` (src/tools/search_entities.py): the
entities matched by the constructed query, in store order. -/
def searchEntitiesImpl (g : Graph) (req : SearchEntityRequest) : List EntityRecord :=
  (g.nodes.filter (fun n => searchLabelOk req n && searchWhere req n)).map entityMap

/-! ## Update engine (src/tools/update_entities.py) -/

/-- The `UpdateEntityRequest` dataclass; as in the source, absent
optional fields (Python `None`) and empty collections behave
identically, so they are modelled as `[]`.  Updates addressed at the
`id` property itself are outside the modelled fragment (the id is kept
in the dedicated `Node.id` field). -/
structure UpdateEntityRequest where
  id : String
  properties : List (String × Value) := []
  remove_properties : List String := []
  add_labels : List String := []
  remove_labels : List String := []
deriving DecidableEq, Repr

/-- The `UpdateEntitiesResult` dataclass. -/
structure UpdateEntitiesResult where
  success : Bool
  updated_entities : List EntityRecord
  errors : Option (List String) := none
deriving DecidableEq, Repr

/-- Set one property (`SET n.k = v` semantics inside `n += $props`):
overwrite an existing key in place, else append. -/
def setProp (props : List (String × Value)) (k : String) (v : Value) :
    List (String × Value) :=
  if props.any (fun kv => decide (kv.1 = k)) then
    props.map (fun kv => if decide (kv.1 = k) then (k, v) else kv)
  else
    props ++ [(k, v)]

/-- Cypher `SET n += $props`: merge the request's property map. -/
def mergeProps (props updates : List (String × Value)) : List (String × Value) :=
  updates.foldl (fun acc kv => setProp acc kv.1 kv.2) props

/-- Cypher `REMOVE n.prop` for each listed property. -/
def removeProps (props : List (String × Value)) (keys : List String) :
    List (String × Value) :=
  props.filter (fun kv => !(decide (kv.1 ∈ keys)))

/-- Cypher `SET n:Label` for each label to add (no duplicates). -/
def addLabels (labels toAdd : List String) : List String :=
  toAdd.foldl (fun acc l => if l ∈ acc then acc else acc ++ [l]) labels

/-- Cypher `REMOVE n:Label` for each label to remove. -/
def removeLabels (labels toRemove : List String) : List String :=
  labels.filter (fun l => !(decide (l ∈ toRemove)))

/-- Apply one update request to a matched node: the generated query
lists its SET clauses (property merge, label additions) before its
REMOVE clauses (property removals, label removals). -/
def applyUpdateToNode (req : UpdateEntityRequest) (n : Node) : Node :=
  { n with
    props := removeProps (mergeProps n.props req.properties) req.remove_properties,
    labels := removeLabels (addLabels n.labels req.add_labels) req.remove_labels }

/-- One iteration of the update loop: `MATCH (n:Entity) WHERE n.id =
$id`, apply the SET/REMOVE clauses, and return the updated node's
record (the source reads a single record from the result). -/
def applyUpdateRequest (g : Graph) (req : UpdateEntityRequest) :
    Graph × Option EntityRecord :=
  let hit := fun (n : Node) => decide ("Entity" ∈ n.labels) && decide (n.id = req.id)
  let g' : Graph :=
    ⟨g.nodes.map (fun n => if hit n then applyUpdateToNode req n else n), g.rels⟩
  ((g' : Graph),
   ((g.nodes.filter hit).map (fun n => entityMap (applyUpdateToNode req n))).head?)

/-- The update loop over all requests, accumulating updated records. -/
def runUpdates (g : Graph) : List UpdateEntityRequest → Graph × List EntityRecord
  | [] => (g, [])
  | req :: rest =>
    let step := applyUpdateRequest g req
    let tail := runUpdates step.1 rest
    (tail.1, (step.2.toList) ++ tail.2)

/-- The ids the existence-check query reports as present:
`MATCH (n:Entity) WHERE n.id IN $entity_ids RETURN collect(n.id)`. -/
def foundIds (g : Graph) (entityIds : List String) : List String :=
  (matchedNodes g entityIds).map (·.id)

/-- The requested ids with no matching `Entity` node (the source's
`set(entity_ids) - set(found_ids)`, deduplicated). -/
def missingIds (g : Graph) (entityIds : List String) : List String :=
  distinctList (entityIds.filter (fun i => !(decide (i ∈ foundIds g entityIds))))

/-- `update_entities_impl` (src/tools/update_entities.py): verify up
front that every requested id matches an `Entity` node; if any is
missing, fail the whole batch with no mutation; otherwise run each
update in order (the per-request try/except collects errors, but the
modelled query construction cannot fail, so the loop reports
success). -/
def updateEntitiesImpl (g : Graph) (requests : List UpdateEntityRequest) :
    Graph × UpdateEntitiesResult :=
  let entityIds := requests.map (·.id)
  let missing := missingIds g entityIds
  if !missing.isEmpty then
    (g, { success := false, updated_entities := [],
          errors := some ["Entities not found: " ++ String.intercalate ", " missing] })
  else
    let run := runUpdates g requests
    (run.1, { success := true, updated_entities := run.2, errors := none })

/-! ## Concrete fixtures

A small office graph: `alice` works at `acme` and knows `bob`; `solo`
has no relationships.  `gAge` holds a single entity with an integer
property. -/

def alice : Node := ⟨"alice", ["Entity", "Person"], [("name", Value.str "Alice")]⟩

def bob : Node := ⟨"bob", ["Entity", "Person"], [("name", Value.str "Bob")]⟩

def acme : Node := ⟨"acme", ["Entity", "Company"], [("name", Value.str "Acme")]⟩

def solo : Node := ⟨"solo", ["Entity", "Person"], [("name", Value.str "Solo")]⟩

def worksAt : Edge := ⟨"WORKS_AT", "alice", "acme", []⟩

def knows : Edge := ⟨"KNOWS", "alice", "bob", []⟩

def gOffice : Graph := ⟨[alice, bob, acme, solo], [worksAt, knows]⟩

def ageNode : Node := ⟨"e1", ["Entity", "Person"], [("age", Value.int 30)]⟩

def gAge : Graph := ⟨[ageNode], []⟩

/-! ## Helper lemmas -/

theorem any_const_false (l : List α) : l.any (fun _ => false) = false := by
  induction l with
  | nil => rfl
  | cons a l ih => simp [List.any_cons, ih]

theorem any_const (c : Bool) (l : List α) (h : l ≠ []) : l.any (fun _ => c) = c := by
  cases l with
  | nil => exact absurd rfl h
  | cons a l =>
    cases c with
    | true => simp
    | false => simp [any_const_false l]

theorem isEmpty_false_of_ne_nil {l : List α} (h : l ≠ []) : l.isEmpty = false := by
  cases l with
  | nil => exact absurd rfl h
  | cons a l => rfl

/-- The dry-run branch of `deleteCore`. -/
theorem deleteCore_dry (g : Graph) (ids : List String) (c : Bool) :
    deleteCore g ids c true =
      (g, { success := true, deleted_entities := [], deleted_relationships := [],
            impacted_entities := some (analyzeDeletionImpact g ids).entities,
            impacted_relationships := some (analyzeDeletionImpact g ids).relations }) := by
  simp [deleteCore]

/-- The orphan-prevention branch of `deleteCore`. -/
theorem deleteCore_orphanBlock (g : Graph) (ids : List String)
    (ho : (analyzeDeletionImpact g ids).orphaned_relations ≠ []) :
    deleteCore g ids false false =
      (g, { success := false, deleted_entities := [], deleted_relationships := [],
            errors := some [orphanErrorMsg] }) := by
  simp [deleteCore, isEmpty_false_of_ne_nil ho]

/-- The conservative-deletion branch of `deleteCore`. -/
theorem deleteCore_safe (g : Graph) (ids : List String)
    (ho : (analyzeDeletionImpact g ids).orphaned_relations = []) :
    deleteCore g ids false false =
      (if (performSafeDelete g ids).2 = 0 then
        ((performSafeDelete g ids).1,
         { success := false, deleted_entities := [], deleted_relationships := [],
           errors := some ["Entity not found"] })
       else
        ((performSafeDelete g ids).1,
         { success := true,
           deleted_entities := (analyzeDeletionImpact g ids).entities,
           deleted_relationships := [] })) := by
  simp [deleteCore, ho]

/-- The cascade-deletion branch of `deleteCore`. -/
theorem deleteCore_cascade (g : Graph) (ids : List String) :
    deleteCore g ids true false =
      (if (performCascadeDelete g ids).2 = 0 then
        ((performCascadeDelete g ids).1,
         { success := false, deleted_entities := [], deleted_relationships := [],
           errors := some ["Entity not found"] })
       else
        ((performCascadeDelete g ids).1,
         { success := true,
           deleted_entities := (analyzeDeletionImpact g ids).entities,
           deleted_relationships := (analyzeDeletionImpact g ids).relations })) := by
  simp [deleteCore]

/-! ## Claims -/

/-- C1: for every delete call with cascade=false and dry_run=false
whose computed orphaned-relationship set is non-empty,
`delete_entities_impl` returns success=false with a non-empty errors
list describing the orphan condition, and performs no mutation: the
store state is returned unchanged and both deleted sets are empty. -/
theorem delete_orphan_prevention (g : Graph) (reqs : List DeleteEntityRequest)
    (hc : reqs.any (·.cascade) = false)
    (ho : (analyzeDeletionImpact g (reqs.map (·.id))).orphaned_relations ≠ []) :
    (deleteEntitiesImpl g reqs false).1 = g ∧
    (deleteEntitiesImpl g reqs false).2.success = false ∧
    (deleteEntitiesImpl g reqs false).2.errors = some [orphanErrorMsg] ∧
    (deleteEntitiesImpl g reqs false).2.deleted_entities = [] ∧
    (deleteEntitiesImpl g reqs false).2.deleted_relationships = [] := by
  unfold deleteEntitiesImpl
  rw [hc, deleteCore_orphanBlock g _ ho]
  exact ⟨rfl, rfl, rfl, rfl, rfl⟩

/-- Witness for C1: deleting `alice` alone (non-cascade) is blocked,
since both her relationships lead outside the deletion set. -/
theorem delete_orphan_prevention_witness :
    (deleteEntitiesImpl gOffice [⟨"alice", false⟩] false).1 = gOffice ∧
    (deleteEntitiesImpl gOffice [⟨"alice", false⟩] false).2.success = false ∧
    (deleteEntitiesImpl gOffice [⟨"alice", false⟩] false).2.errors = some [orphanErrorMsg] ∧
    (deleteEntitiesImpl gOffice [⟨"alice", false⟩] false).2.deleted_entities = [] ∧
    (deleteEntitiesImpl gOffice [⟨"alice", false⟩] false).2.deleted_relationships = [] :=
  delete_orphan_prevention gOffice [⟨"alice", false⟩] (by decide) (by decide)

/-- All four office entities, requested without cascade. -/
def reqsOffice : List DeleteEntityRequest :=
  [⟨"alice", false⟩, ⟨"bob", false⟩, ⟨"acme", false⟩, ⟨"solo", false⟩]

/-- C2: with cascade=false, dry_run=false and an empty orphaned set,
exactly the matched entities with zero incident relationships are
deleted; an entity whose every relationship is internal to the
deletion set keeps at least one incident relationship and is therefore
not deleted; and no relationship is deleted in non-cascade mode. -/
theorem delete_noncascade_conservative (g : Graph) (reqs : List DeleteEntityRequest)
    (hc : reqs.any (·.cascade) = false)
    (ho : (analyzeDeletionImpact g (reqs.map (·.id))).orphaned_relations = []) :
    (deleteEntitiesImpl g reqs false).1.rels = g.rels ∧
    (deleteEntitiesImpl g reqs false).1.nodes =
      g.nodes.filter (fun n => !(matchesDelete (reqs.map (·.id)) n &&
        !(g.rels.any (fun r => incident n r)))) ∧
    (∀ n ∈ g.nodes, matchesDelete (reqs.map (·.id)) n = true →
      g.rels.any (fun r => incident n r) = true →
      n ∈ (deleteEntitiesImpl g reqs false).1.nodes) := by
  have hstate : (deleteEntitiesImpl g reqs false).1 =
      (performSafeDelete g (reqs.map (·.id))).1 := by
    unfold deleteEntitiesImpl
    rw [hc, deleteCore_safe g _ ho]
    by_cases h : (performSafeDelete g (reqs.map (·.id))).2 = 0 <;> simp [h]
  refine ⟨?_, ?_, ?_⟩
  · rw [hstate]; rfl
  · rw [hstate]; rfl
  · intro n hn hm hr
    rw [hstate]
    simp only [performSafeDelete]
    exact List.mem_filter.mpr ⟨hn, by simp [hm, hr]⟩

/-- Witness for C2: deleting all four office entities without cascade
removes only `solo` (the single relationship-free entity); `alice`,
whose relationships are both internal to the set, survives, and both
relationships survive. -/
theorem delete_noncascade_conservative_witness :
    (deleteEntitiesImpl gOffice reqsOffice false).1.rels = gOffice.rels ∧
    (deleteEntitiesImpl gOffice reqsOffice false).1.nodes =
      gOffice.nodes.filter (fun n => !(matchesDelete (reqsOffice.map (·.id)) n &&
        !(gOffice.rels.any (fun r => incident n r)))) ∧
    (∀ n ∈ gOffice.nodes, matchesDelete (reqsOffice.map (·.id)) n = true →
      gOffice.rels.any (fun r => incident n r) = true →
      n ∈ (deleteEntitiesImpl gOffice reqsOffice false).1.nodes) :=
  delete_noncascade_conservative gOffice reqsOffice (by decide) (by decide)

/-- Membership characterisation of the impact's relationship list: the
deduplicated maps of the relationships incident to some matched node. -/
theorem mem_impact_relations (g : Graph) (ids : List String) (rm : RelRecord) :
    rm ∈ (analyzeDeletionImpact g ids).relations ↔
      ∃ n ∈ g.nodes, matchesDelete ids n = true ∧
        ∃ r ∈ g.rels, incident n r = true ∧ rm = relMap r := by
  unfold analyzeDeletionImpact matchedNodes
  simp only [mem_distinctList, List.mem_map, List.mem_flatMap, List.mem_filter]
  constructor
  · rintro ⟨r, ⟨n, ⟨hn, hm⟩, hr, hinc⟩, rfl⟩
    exact ⟨n, hn, hm, r, hr, hinc, rfl⟩
  · rintro ⟨n, hn, hm, r, hr, hinc, rfl⟩
    exact ⟨r, ⟨n, ⟨hn, hm⟩, hr, hinc⟩, rfl⟩

/-- Membership characterisation of the impact's entity list: the
deduplicated entity maps of the matched nodes. -/
theorem mem_impact_entities (g : Graph) (ids : List String) (em : EntityRecord) :
    em ∈ (analyzeDeletionImpact g ids).entities ↔
      ∃ n ∈ g.nodes, matchesDelete ids n = true ∧ em = entityMap n := by
  unfold analyzeDeletionImpact matchedNodes
  simp only [mem_distinctList, List.mem_map, List.mem_filter]
  constructor
  · rintro ⟨n, ⟨hn, hm⟩, rfl⟩
    exact ⟨n, hn, hm, rfl⟩
  · rintro ⟨n, hn, hm, rfl⟩
    exact ⟨n, ⟨hn, hm⟩, rfl⟩

/-- C3 (amended): a dry run leaves the store unchanged and returns the
computed impact's matched entities and deduplicated incident
relationships; the orphaned subset, though computed, is not part of
the returned result (see the counterexample). -/
theorem delete_dryRun_pure (g : Graph) (reqs : List DeleteEntityRequest) :
    (deleteEntitiesImpl g reqs true).1 = g ∧
    (deleteEntitiesImpl g reqs true).2.success = true ∧
    (deleteEntitiesImpl g reqs true).2.errors = none ∧
    (deleteEntitiesImpl g reqs true).2.impacted_entities =
      some (analyzeDeletionImpact g (reqs.map (·.id))).entities ∧
    (deleteEntitiesImpl g reqs true).2.impacted_relationships =
      some (analyzeDeletionImpact g (reqs.map (·.id))).relations ∧
    (∀ em, em ∈ (analyzeDeletionImpact g (reqs.map (·.id))).entities ↔
      ∃ n ∈ g.nodes, matchesDelete (reqs.map (·.id)) n = true ∧ em = entityMap n) ∧
    (∀ rm, rm ∈ (analyzeDeletionImpact g (reqs.map (·.id))).relations ↔
      ∃ n ∈ g.nodes, matchesDelete (reqs.map (·.id)) n = true ∧
        ∃ r ∈ g.rels, incident n r = true ∧ rm = relMap r) := by
  unfold deleteEntitiesImpl
  rw [deleteCore_dry]
  exact ⟨rfl, rfl, rfl, rfl, rfl,
    fun em => mem_impact_entities g _ em,
    fun rm => mem_impact_relations g _ rm⟩

/-- Counterexample for C3 as stated: on the office graph, previewing
the deletion of `alice` and `bob` computes a non-empty orphaned subset
(`WORKS_AT`), but no component of the returned `DeletionResult` equals
that subset — `impacted_relationships` holds all incident
relationships and `deleted_relationships` is empty, so the orphaned
subset is not returned. -/
theorem dryRun_orphan_subset_not_returned :
    (analyzeDeletionImpact gOffice ["alice", "bob"]).orphaned_relations ≠ [] ∧
    (deleteEntitiesImpl gOffice [⟨"alice", false⟩, ⟨"bob", false⟩] true).2.impacted_relationships ≠
      some (analyzeDeletionImpact gOffice ["alice", "bob"]).orphaned_relations ∧
    (deleteEntitiesImpl gOffice [⟨"alice", false⟩, ⟨"bob", false⟩] true).2.deleted_relationships ≠
      (analyzeDeletionImpact gOffice ["alice", "bob"]).orphaned_relations := by
  decide

/-- C4: a relationship collected by the impact analysis is classified
as orphaned iff exactly one of its two endpoints is in the requested
id set; in particular a relationship with both endpoints in the
deletion set is never orphaned. -/
theorem orphan_iff_exactly_one_endpoint (g : Graph) (ids : List String) (rel : RelRecord)
    (hm : rel ∈ (analyzeDeletionImpact g ids).relations) :
    (rel ∈ (analyzeDeletionImpact g ids).orphaned_relations ↔
      (decide (rel.fromId ∈ ids) != decide (rel.toId ∈ ids)) = true) ∧
    (rel.fromId ∈ ids → rel.toId ∈ ids →
      rel ∉ (analyzeDeletionImpact g ids).orphaned_relations) := by
  have horph : (analyzeDeletionImpact g ids).orphaned_relations =
      (analyzeDeletionImpact g ids).relations.filter
        (fun r => decide (r.fromId ∈ ids) != decide (r.toId ∈ ids)) := rfl
  constructor
  · rw [horph, List.mem_filter]
    simp [hm]
  · intro h1 h2 hmem
    rw [horph] at hmem
    have h := (List.mem_filter.mp hmem).2
    simp [h1, h2] at h

/-- Witness for C4: in the office graph with deletion set
{alice, bob}, `WORKS_AT` (one endpoint outside) is orphaned iff its
endpoint test says so, and `KNOWS` (both endpoints inside) is never
orphaned. -/
theorem orphan_iff_exactly_one_endpoint_witness :
    ((⟨"KNOWS", "alice", "bob", []⟩ : RelRecord) ∈
        (analyzeDeletionImpact gOffice ["alice", "bob"]).orphaned_relations ↔
      (decide ((⟨"KNOWS", "alice", "bob", []⟩ : RelRecord).fromId ∈ ["alice", "bob"]) !=
        decide ((⟨"KNOWS", "alice", "bob", []⟩ : RelRecord).toId ∈ ["alice", "bob"])) = true) ∧
    ((⟨"KNOWS", "alice", "bob", []⟩ : RelRecord).fromId ∈ ["alice", "bob"] →
      (⟨"KNOWS", "alice", "bob", []⟩ : RelRecord).toId ∈ ["alice", "bob"] →
      (⟨"KNOWS", "alice", "bob", []⟩ : RelRecord) ∉
        (analyzeDeletionImpact gOffice ["alice", "bob"]).orphaned_relations) :=
  orphan_iff_exactly_one_endpoint gOffice ["alice", "bob"]
    ⟨"KNOWS", "alice", "bob", []⟩ (by decide)

/-- C5: `delete_entities_impl` computes one id list (the union of the
requested ids) and one batch-level cascade flag (the OR of the
per-request flags), so the call is indistinguishable from one in which
every request carries the OR-ed flag — in particular, one request with
cascade=true puts the entire batch in cascade mode. -/
theorem batch_cascade_or (g : Graph) (reqs : List DeleteEntityRequest) (d : Bool) :
    (deleteEntitiesImpl g reqs d =
      deleteEntitiesImpl g (reqs.map (fun r => ⟨r.id, reqs.any (·.cascade)⟩)) d) ∧
    (∀ r ∈ reqs, r.cascade = true →
      deleteEntitiesImpl g reqs d =
        deleteEntitiesImpl g (reqs.map (fun x => ⟨x.id, true⟩)) d) := by
  have hids : ∀ (c : Bool),
      (reqs.map (fun r => (⟨r.id, c⟩ : DeleteEntityRequest))).map (·.id) =
        reqs.map (·.id) := by
    intro c; rw [List.map_map]; rfl
  have hany : ∀ (c : Bool),
      (reqs.map (fun r => (⟨r.id, c⟩ : DeleteEntityRequest))).any (·.cascade) =
        reqs.any (fun _ => c) := by
    intro c; rw [List.any_map]; rfl
  constructor
  · unfold deleteEntitiesImpl
    rw [hids, hany]
    have h : reqs.any (fun _ => reqs.any (·.cascade)) = reqs.any (·.cascade) := by
      cases hr : reqs with
      | nil => rfl
      | cons a l => exact any_const _ _ (by simp)
    rw [h]
  · intro r hr hrc
    have hc : reqs.any (·.cascade) = true := List.any_eq_true.mpr ⟨r, hr, hrc⟩
    have hne : reqs ≠ [] := List.ne_nil_of_mem hr
    unfold deleteEntitiesImpl
    rw [hids, hany, any_const _ _ hne, hc]

/-- Witness for C5: a batch with one cascading and one plain request
behaves exactly like the batch with both requests cascading. -/
theorem batch_cascade_or_witness :
    deleteEntitiesImpl gOffice [⟨"alice", true⟩, ⟨"bob", false⟩] false =
      deleteEntitiesImpl gOffice
        (([⟨"alice", true⟩, ⟨"bob", false⟩] : List DeleteEntityRequest).map
          (fun x => (⟨x.id, true⟩ : DeleteEntityRequest))) false :=
  (batch_cascade_or gOffice [⟨"alice", true⟩, ⟨"bob", false⟩] false).2
    ⟨"alice", true⟩ (by decide) rfl

/-- The impact of an id set matching no node is empty. -/
theorem impact_matched_nil (g : Graph) (ids : List String)
    (hm : matchedNodes g ids = []) :
    analyzeDeletionImpact g ids = ⟨[], [], []⟩ := by
  simp [analyzeDeletionImpact, hm, distinctList, distinctAux]

/-- When no node matches, the matching predicate is false on every
node of the store. -/
theorem matchesDelete_false_of_matched_nil (g : Graph) (ids : List String)
    (hm : matchedNodes g ids = []) :
    ∀ n ∈ g.nodes, matchesDelete ids n = false := by
  intro n hn
  have h := List.filter_eq_nil_iff.mp hm n hn
  exact Bool.not_eq_true _ ▸ eq_false_of_ne_true h

/-- The conservative deletion is a no-op when no node matches. -/
theorem performSafeDelete_matched_nil (g : Graph) (ids : List String)
    (hm : matchedNodes g ids = []) :
    performSafeDelete g ids = (g, 0) := by
  have hnone := matchesDelete_false_of_matched_nil g ids hm
  have h1 : g.nodes.filter (fun n => !(matchesDelete ids n &&
      !(g.rels.any (fun r => incident n r)))) = g.nodes :=
    List.filter_eq_self.mpr (fun n hn => by simp [hnone n hn])
  have h2 : g.nodes.filter (fun n => matchesDelete ids n &&
      !(g.rels.any (fun r => incident n r))) = [] :=
    List.filter_eq_nil_iff.mpr (fun n hn => by simp [hnone n hn])
  show (⟨g.nodes.filter (fun n => !(matchesDelete ids n &&
      !(g.rels.any (fun r => incident n r)))), g.rels⟩,
    (g.nodes.filter (fun n => matchesDelete ids n &&
      !(g.rels.any (fun r => incident n r)))).length) = (g, 0)
  rw [h1, h2]
  rfl

/-- The cascade deletion is a no-op when no node matches. -/
theorem performCascadeDelete_matched_nil (g : Graph) (ids : List String)
    (hm : matchedNodes g ids = []) :
    performCascadeDelete g ids = (g, 0) := by
  have hnone := matchesDelete_false_of_matched_nil g ids hm
  have h1 : g.nodes.filter (fun n => !(matchesDelete ids n)) = g.nodes :=
    List.filter_eq_self.mpr (fun n hn => by simp [hnone n hn])
  show (⟨g.nodes.filter (fun n => !(matchesDelete ids n)),
    g.rels.filter (fun r => !((matchedNodes g ids).any (fun n => incident n r)))⟩,
    (matchedNodes g ids).length) = (g, 0)
  rw [h1, hm]
  simp

/-- C6 (amended): when the match query finds zero Entity-labelled
nodes for the given ids, a non-dry-run delete returns success=false
with the "Entity not found" error and leaves the store unchanged; the
counterexample shows the same error is also reported in other
zero-deletion situations, so it is not exclusive to the zero-match
case. -/
theorem delete_not_found_on_zero_match (g : Graph) (reqs : List DeleteEntityRequest)
    (hm : matchedNodes g (reqs.map (·.id)) = []) :
    (deleteEntitiesImpl g reqs false).2.success = false ∧
    (deleteEntitiesImpl g reqs false).2.errors = some ["Entity not found"] ∧
    (deleteEntitiesImpl g reqs false).1 = g := by
  have himp := impact_matched_nil g _ hm
  unfold deleteEntitiesImpl
  cases hc : reqs.any (·.cascade) with
  | false =>
    rw [deleteCore_safe g _ (by rw [himp]), performSafeDelete_matched_nil g _ hm]
    simp
  | true =>
    rw [deleteCore_cascade, performCascadeDelete_matched_nil g _ hm]
    simp

/-- Witness for C6 (amended): deleting a nonexistent id reports
"Entity not found". -/
theorem delete_not_found_on_zero_match_witness :
    (deleteEntitiesImpl gOffice [⟨"ghost", false⟩] false).2.success = false ∧
    (deleteEntitiesImpl gOffice [⟨"ghost", false⟩] false).2.errors =
      some ["Entity not found"] ∧
    (deleteEntitiesImpl gOffice [⟨"ghost", false⟩] false).1 = gOffice :=
  delete_not_found_on_zero_match gOffice [⟨"ghost", false⟩] (by decide)

/-- Counterexample for C6 as stated: deleting `alice`, `bob` and
`acme` (non-cascade) matches three existing entities and the orphaned
set is empty, yet every matched entity retains an internal
relationship, so the delete query removes zero entities and the call
still reports "Entity not found" — the error is not reported only in
the zero-match case. -/
theorem not_found_error_despite_match :
    matchedNodes gOffice ["alice", "bob", "acme"] ≠ [] ∧
    (deleteEntitiesImpl gOffice [⟨"alice", false⟩, ⟨"bob", false⟩, ⟨"acme", false⟩]
      false).2.errors = some ["Entity not found"] ∧
    (deleteEntitiesImpl gOffice [⟨"alice", false⟩, ⟨"bob", false⟩, ⟨"acme", false⟩]
      false).2.success = false := by
  decide

/-- C9: in a non-cascade, non-dry-run call that succeeds (empty
orphaned set, at least one matched entity with zero relationships)
while another matched entity retains a relationship, the result
reports success and `deleted_entities` echoes every matched entity of
the impact analysis — including the retained entity, which is still in
the store after the call. -/
theorem deleted_entities_overreported (g : Graph) (reqs : List DeleteEntityRequest)
    (hc : reqs.any (·.cascade) = false)
    (ho : (analyzeDeletionImpact g (reqs.map (·.id))).orphaned_relations = [])
    (n1 n2 : Node)
    (hn1 : n1 ∈ g.nodes) (hm1 : matchesDelete (reqs.map (·.id)) n1 = true)
    (hf1 : g.rels.any (fun r => incident n1 r) = false)
    (hn2 : n2 ∈ g.nodes) (hm2 : matchesDelete (reqs.map (·.id)) n2 = true)
    (hf2 : g.rels.any (fun r => incident n2 r) = true) :
    (deleteEntitiesImpl g reqs false).2.success = true ∧
    (deleteEntitiesImpl g reqs false).2.deleted_entities =
      (analyzeDeletionImpact g (reqs.map (·.id))).entities ∧
    entityMap n2 ∈ (deleteEntitiesImpl g reqs false).2.deleted_entities ∧
    n2 ∈ (deleteEntitiesImpl g reqs false).1.nodes := by
  have hcount : ¬((performSafeDelete g (reqs.map (·.id))).2 = 0) := by
    have hmem : n1 ∈ g.nodes.filter (fun n => matchesDelete (reqs.map (·.id)) n &&
        !(g.rels.any (fun r => incident n r))) :=
      List.mem_filter.mpr ⟨hn1, by simp [hm1, hf1]⟩
    have hne := List.ne_nil_of_mem hmem
    show ¬((g.nodes.filter (fun n => matchesDelete (reqs.map (·.id)) n &&
        !(g.rels.any (fun r => incident n r)))).length = 0)
    intro h0
    exact hne (List.eq_nil_of_length_eq_zero h0)
  unfold deleteEntitiesImpl
  rw [hc, deleteCore_safe g _ ho, if_neg hcount]
  refine ⟨rfl, rfl, ?_, ?_⟩
  · exact (mem_impact_entities g _ _).mpr ⟨n2, hn2, hm2, rfl⟩
  · show n2 ∈ (g.nodes.filter (fun n => !(matchesDelete (reqs.map (·.id)) n &&
      !(g.rels.any (fun r => incident n r)))))
    exact List.mem_filter.mpr ⟨hn2, by simp [hm2, hf2]⟩

/-- Witness for C9: deleting all four office entities without cascade
succeeds (only `solo` is relationship-free and removed), yet
`deleted_entities` lists `alice`, who keeps her relationships and is
still in the store. -/
theorem deleted_entities_overreported_witness :
    (deleteEntitiesImpl gOffice reqsOffice false).2.success = true ∧
    (deleteEntitiesImpl gOffice reqsOffice false).2.deleted_entities =
      (analyzeDeletionImpact gOffice (reqsOffice.map (·.id))).entities ∧
    entityMap alice ∈ (deleteEntitiesImpl gOffice reqsOffice false).2.deleted_entities ∧
    alice ∈ (deleteEntitiesImpl gOffice reqsOffice false).1.nodes :=
  deleted_entities_overreported gOffice reqsOffice (by decide) (by decide)
    solo alice (by decide) (by decide) (by decide) (by decide) (by decide) (by decide)

/-- C10: a dry run whose ids match no existing entity returns
success=true with empty impacted sets and no error; moreover the
dry-run branch runs before the not-found check, so no dry run ever
reports an error. -/
theorem dryRun_no_match_reports_success (g : Graph) (reqs : List DeleteEntityRequest)
    (hm : matchedNodes g (reqs.map (·.id)) = []) :
    (deleteEntitiesImpl g reqs true).2.success = true ∧
    (deleteEntitiesImpl g reqs true).2.impacted_entities = some [] ∧
    (deleteEntitiesImpl g reqs true).2.impacted_relationships = some [] ∧
    (deleteEntitiesImpl g reqs true).2.errors = none ∧
    (deleteEntitiesImpl g reqs true).1 = g ∧
    (∀ (g' : Graph) (reqs' : List DeleteEntityRequest),
      (deleteEntitiesImpl g' reqs' true).2.errors = none) := by
  have himp := impact_matched_nil g _ hm
  unfold deleteEntitiesImpl
  rw [deleteCore_dry, himp]
  refine ⟨rfl, rfl, rfl, rfl, rfl, ?_⟩
  intro g' reqs'
  rw [deleteCore_dry]

/-- Witness for C10: a dry run on a nonexistent id returns an empty
impact, no error and full success. -/
theorem dryRun_no_match_reports_success_witness :
    (deleteEntitiesImpl gOffice [⟨"ghost", false⟩] true).2.success = true ∧
    (deleteEntitiesImpl gOffice [⟨"ghost", false⟩] true).2.impacted_entities = some [] ∧
    (deleteEntitiesImpl gOffice [⟨"ghost", false⟩] true).2.impacted_relationships = some [] ∧
    (deleteEntitiesImpl gOffice [⟨"ghost", false⟩] true).2.errors = none ∧
    (deleteEntitiesImpl gOffice [⟨"ghost", false⟩] true).1 = gOffice ∧
    (∀ (g' : Graph) (reqs' : List DeleteEntityRequest),
      (deleteEntitiesImpl g' reqs' true).2.errors = none) :=
  dryRun_no_match_reports_success gOffice [⟨"ghost", false⟩] (by decide)

/-- In the explicit-properties fuzzy branch the WHERE clause is the
word-level/property-level disjunction of stringified containment
tests. -/
theorem searchWhere_props_fuzzy (term : String) (ps : List String) (n : Node)
    (hps : ps ≠ []) (ht : term ≠ "") :
    searchWhere { search_term := term, properties := ps } n =
      ps.any (fun p => fuzzyPropMatch n p term) := by
  unfold searchWhere
  simp [isEmpty_false_of_ne_nil hps, ht]

/-- In the scan-all-keys fuzzy branch the WHERE clause applies the
regex directly to each raw property value. -/
theorem searchWhere_scanAll_fuzzy (req : SearchEntityRequest) (m : Node)
    (hps : req.properties = []) (ht : req.search_term ≠ "") (hf : req.fuzzy_match = true) :
    searchWhere req m =
      m.allProps.any (fun kv => regexFuzzyValue kv.2 req.search_term) := by
  unfold searchWhere
  simp [hps, ht, hf]

/-- C7 (amended): with a search term and fuzzy matching, property
values are stringified before the case-insensitive containment test
only when an explicit properties list is given — such a search matches
an entity through the stringification of a numeric or boolean value.
In the scan-all-keys branch the raw value is regex-matched without
stringification, so a node satisfies the predicate iff some property
holds a string value that case-insensitively contains the term;
numeric and boolean values never match there. -/
theorem search_stringifies_only_with_explicit_properties
    (g : Graph) (term : String) (ps : List String) (n : Node)
    (hn : n ∈ g.nodes) (hl : "Entity" ∈ n.labels)
    (hps : ps ≠ []) (ht : term ≠ "")
    (p : String) (v : Value) (hp : p ∈ ps) (hv : n.allProps.lookup p = some v)
    (w : String) (hw : w ∈ splitWords term)
    (hcont : containsCI (toStringVal v) w = true) :
    entityMap n ∈ searchEntitiesImpl g { search_term := term, properties := ps } ∧
    (∀ (req : SearchEntityRequest) (m : Node), req.properties = [] →
      req.search_term ≠ "" → req.fuzzy_match = true →
      (searchWhere req m = true ↔
        ∃ kv ∈ m.allProps, ∃ s, kv.2 = Value.str s ∧
          containsCI s req.search_term = true)) := by
  constructor
  · have hW : searchWhere { search_term := term, properties := ps } n = true := by
      rw [searchWhere_props_fuzzy term ps n hps ht]
      apply List.any_eq_true.mpr
      refine ⟨p, hp, ?_⟩
      unfold fuzzyPropMatch
      rw [hv]
      exact List.any_eq_true.mpr ⟨w, hw, hcont⟩
    unfold searchEntitiesImpl
    apply List.mem_map.mpr
    refine ⟨n, List.mem_filter.mpr ⟨hn, ?_⟩, rfl⟩
    simp [searchLabelOk, hl, hW]
  · intro req m hps0 ht0 hf0
    rw [searchWhere_scanAll_fuzzy req m hps0 ht0 hf0, List.any_eq_true]
    constructor
    · rintro ⟨kv, hkv, hreg⟩
      rcases hval : kv.2 with s | z | b
      · rw [hval] at hreg
        exact ⟨kv, hkv, s, hval, by simpa [regexFuzzyValue] using hreg⟩
      · rw [hval] at hreg
        simp [regexFuzzyValue] at hreg
      · rw [hval] at hreg
        simp [regexFuzzyValue] at hreg
    · rintro ⟨kv, hkv, s, hs, hcont0⟩
      refine ⟨kv, hkv, ?_⟩
      rw [hs]
      simpa [regexFuzzyValue] using hcont0

/-- Witness for C7 (amended): the entity with integer property
`age = 30` is found by the fuzzy search for "30" over the explicit
property list ["age"], and the scan-all characterisation is
instantiated. -/
theorem search_stringifies_only_with_explicit_properties_witness :
    entityMap ageNode ∈
      searchEntitiesImpl gAge { search_term := "30", properties := ["age"] } ∧
    (∀ (req : SearchEntityRequest) (m : Node), req.properties = [] →
      req.search_term ≠ "" → req.fuzzy_match = true →
      (searchWhere req m = true ↔
        ∃ kv ∈ m.allProps, ∃ s, kv.2 = Value.str s ∧
          containsCI s req.search_term = true)) :=
  search_stringifies_only_with_explicit_properties gAge "30" ["age"] ageNode
    (by decide) (by decide) (by decide) (by decide) "age" (Value.int 30)
    (by decide) (by decide) "30" (by decide) (by decide)

/-- Counterexample for C7 as stated: the integer value 30 stringifies
to text containing the term "30", yet the scan-all fuzzy search for
"30" (no properties list) matches nothing on a store holding the
`age = 30` entity, while the same search over the explicit list
["age"] does match it — stringification happens only in the
explicit-properties branch. -/
theorem numeric_property_not_matched_in_scan :
    containsCI (toStringVal (Value.int 30)) "30" = true ∧
    searchEntitiesImpl gAge { search_term := "30" } = [] ∧
    searchEntitiesImpl gAge { search_term := "30", properties := ["age"] } =
      [entityMap ageNode] := by
  decide

/-- A mixed update batch: one existing id, one nonexistent id. -/
def updReqs : List UpdateEntityRequest :=
  [⟨"alice", [("name", Value.str "Alice2")], [], [], []⟩, ⟨"ghost", [], [], [], []⟩]

/-- C8: an update batch containing an id with no matching Entity node
fails as a whole before any modification: success=false, an error
naming exactly the missing ids, no updated entities, and the store is
unchanged — including the existing entities of the batch. -/
theorem update_missing_id_fails_batch (g : Graph) (reqs : List UpdateEntityRequest)
    (i : String) (hi : i ∈ reqs.map (·.id))
    (hmiss : ∀ n ∈ g.nodes, ¬("Entity" ∈ n.labels ∧ n.id = i)) :
    (updateEntitiesImpl g reqs).1 = g ∧
    (updateEntitiesImpl g reqs).2.success = false ∧
    (updateEntitiesImpl g reqs).2.updated_entities = [] ∧
    (updateEntitiesImpl g reqs).2.errors =
      some ["Entities not found: " ++
        String.intercalate ", " (missingIds g (reqs.map (·.id)))] ∧
    missingIds g (reqs.map (·.id)) ≠ [] ∧
    (∀ m ∈ missingIds g (reqs.map (·.id)),
      m ∈ reqs.map (·.id) ∧ ∀ n ∈ g.nodes, ¬("Entity" ∈ n.labels ∧ n.id = m)) := by
  have hnotfound : ¬(i ∈ foundIds g (reqs.map (·.id))) := by
    intro hmem
    unfold foundIds matchedNodes at hmem
    obtain ⟨n, hnf, hid⟩ := List.mem_map.mp hmem
    obtain ⟨hn, hmatch⟩ := List.mem_filter.mp hnf
    unfold matchesDelete at hmatch
    simp only [Bool.and_eq_true, decide_eq_true_eq] at hmatch
    exact hmiss n hn ⟨hmatch.1, hid⟩
  have himem : i ∈ missingIds g (reqs.map (·.id)) := by
    unfold missingIds
    rw [mem_distinctList, List.mem_filter]
    exact ⟨hi, by simp [hnotfound]⟩
  have hne : missingIds g (reqs.map (·.id)) ≠ [] := List.ne_nil_of_mem himem
  have hbranch : (missingIds g (reqs.map (·.id))).isEmpty = false :=
    isEmpty_false_of_ne_nil hne
  have hrest : ∀ m ∈ missingIds g (reqs.map (·.id)),
      m ∈ reqs.map (·.id) ∧ ∀ n ∈ g.nodes, ¬("Entity" ∈ n.labels ∧ n.id = m) := by
    intro m hmm
    unfold missingIds at hmm
    rw [mem_distinctList, List.mem_filter] at hmm
    obtain ⟨h1, h2⟩ := hmm
    refine ⟨h1, ?_⟩
    rintro n hn ⟨hlab, hid⟩
    have hfound : m ∈ foundIds g (reqs.map (·.id)) := by
      unfold foundIds matchedNodes
      refine List.mem_map.mpr ⟨n, List.mem_filter.mpr ⟨hn, ?_⟩, hid⟩
      unfold matchesDelete
      simp [hlab, hid, h1]
    simp [hfound] at h2
  unfold updateEntitiesImpl
  simp only [hbranch]
  exact ⟨rfl, rfl, rfl, rfl, hne, hrest⟩

/-- Witness for C8: updating `alice` (existing) together with `ghost`
(nonexistent) fails the whole batch, modifies nothing, and reports the
missing id. -/
theorem update_missing_id_fails_batch_witness :
    (updateEntitiesImpl gOffice updReqs).1 = gOffice ∧
    (updateEntitiesImpl gOffice updReqs).2.success = false ∧
    (updateEntitiesImpl gOffice updReqs).2.updated_entities = [] ∧
    (updateEntitiesImpl gOffice updReqs).2.errors =
      some ["Entities not found: " ++
        String.intercalate ", " (missingIds gOffice (updReqs.map (·.id)))] ∧
    missingIds gOffice (updReqs.map (·.id)) ≠ [] ∧
    (∀ m ∈ missingIds gOffice (updReqs.map (·.id)),
      m ∈ updReqs.map (·.id) ∧ ∀ n ∈ gOffice.nodes, ¬("Entity" ∈ n.labels ∧ n.id = m)) :=
  update_missing_id_fails_batch gOffice updReqs "ghost" (by decide) (by decide)
